import Mathlib

/-!
Verification of the iotjs binding layer (src/iotjs_binding.h) against its
natural-language specification.

The repository ships the interface header `iotjs_binding.h` (class
declarations, the inline `raw_value` accessor, the deleted assignment
operators and the `JHANDLER_FUNCTION` invocation-adapter macro) together
with a build script. The method bodies (the corresponding .cpp translation
unit) are not part of the sources; wherever a body is needed it is modelled
from the specification, and each such definition carries a doc comment
starting with `Modelled from the spec:`.

The embedding is a shallow one: the opaque engine handle type
`jerry_value_t` (typedef JRawValueType) is modelled as a tagged value, the
engine state (reference counts, property tables, native pointers) as an
explicit `Engine` record, and each stateful member function as an explicit
state-passing Lean function.
-/

/-- Model of the opaque raw handle type `JRawValueType` (= `jerry_value_t`).
The binding layer never inspects its representation; for the model we give
it just enough structure for the type predicates and the string and
property operations: a tag plus, for strings, the byte payload (bytes as
`Nat`, keeping embedded zero bytes faithfully), and for objects, functions
and arrays an identity. -/
inductive JRawValueType where
  | undef : JRawValueType
  | null : JRawValueType
  | boolean (b : Bool) : JRawValueType
  | number (n : Int) : JRawValueType
  | str (bytes : List Nat) : JRawValueType
  | object (id : Nat) : JRawValueType
  | jfunction (id : Nat) : JRawValueType
  | array (id : Nat) : JRawValueType
deriving DecidableEq, Repr

/-- The engine-side state visible to the binding layer: a reference count
per raw handle, a property table per object identity, and an optional
native pointer per object identity. -/
structure Engine where
  refcount : JRawValueType → Nat
  props : Nat → List (String × JRawValueType)
  natives : Nat → Option Nat

/-- `jerry_api_acquire_value`: increment the reference count of one handle. -/
def Engine.incRef (e : Engine) (v : JRawValueType) : Engine :=
  { e with refcount := fun x => if x = v then e.refcount x + 1 else e.refcount x }

/-- `jerry_api_release_value`: decrement the reference count of one handle. -/
def Engine.decRef (e : Engine) (v : JRawValueType) : Engine :=
  { e with refcount := fun x => if x = v then e.refcount x - 1 else e.refcount x }

/-- The Value Wrapper `JObject`: one raw handle `_obj_val` plus the
ownership flag `_unref_at_close` (header lines 172-173). -/
structure JObject where
  _obj_val : JRawValueType
  _unref_at_close : Bool
deriving DecidableEq, Repr

/-- The inline accessor `raw_value` (header line 169):
`JRawValueType raw_value() const { return _obj_val; }`. -/
def JObject.raw_value (o : JObject) : JRawValueType :=
  o._obj_val

/-- Modelled from the spec: the body of the copy constructor
`JObject(const JObject& other)` is not under src/. Per the spec,
copy-construction increments the underlying reference count and produces
an owning copy of the same handle. -/
def JObject.copyCtor (e : Engine) (other : JObject) : Engine × JObject :=
  (e.incRef other._obj_val, ⟨other._obj_val, true⟩)

/-- The constructor `JObject(const JRawValueType val, bool need_unref)`
(header lines 71-78): wraps an existing raw handle; the flag records
whether the reference count will be decreased when the wrapper is
destroyed. -/
def JObject.fromRaw (val : JRawValueType) (need_unref : Bool) : JObject :=
  ⟨val, need_unref⟩

/-- Modelled from the spec: the body of the destructor `~JObject` is not
under src/. Per the header comment (lines 110-113) and the spec, the
reference count for the corresponding object is decreased unless
`need_unref` was set false. -/
def JObject.dtor (e : Engine) (o : JObject) : Engine :=
  if o._unref_at_close then e.decRef o._obj_val else e

/-- Claim C1: copy-constructing wrapper a into b increments the underlying
reference count; destroying a and b in either order keeps the count of the
shared handle at least 1 until the last owner is destroyed, and each of
the two wrappers releases exactly once (the final count is the original
count minus one, the copy having added one and each destruction having
removed one). -/
theorem jobject_copy_refcount_correct
    (e : Engine) (a : JObject)
    (howns : a._unref_at_close = true)
    (hlive : 1 ≤ e.refcount a._obj_val) :
    let c := e.refcount a._obj_val
    let e1 := (JObject.copyCtor e a).1
    let b := (JObject.copyCtor e a).2
    e1.refcount a._obj_val = c + 1 ∧
    b._obj_val = a._obj_val ∧
    (JObject.dtor e1 a).refcount a._obj_val = c ∧
    1 ≤ (JObject.dtor e1 a).refcount a._obj_val ∧
    (JObject.dtor e1 b).refcount a._obj_val = c ∧
    1 ≤ (JObject.dtor e1 b).refcount a._obj_val ∧
    (JObject.dtor (JObject.dtor e1 a) b).refcount a._obj_val = c - 1 ∧
    (JObject.dtor (JObject.dtor e1 b) a).refcount a._obj_val = c - 1 := by
  simp only [JObject.copyCtor, JObject.dtor, Engine.incRef, Engine.decRef, howns]
  refine ⟨by simp, by trivial, ?_, ?_, ?_, ?_, ?_, ?_⟩ <;> simp <;> omega

/-- Witness for C1 at a concrete heap (count 1) and a concrete owning
wrapper around the null handle. -/
theorem jobject_copy_refcount_correct_witness :
    let e : Engine := ⟨fun _ => 1, fun _ => [], fun _ => none⟩
    let a : JObject := ⟨JRawValueType.null, true⟩
    let c := e.refcount a._obj_val
    let e1 := (JObject.copyCtor e a).1
    let b := (JObject.copyCtor e a).2
    e1.refcount a._obj_val = c + 1 ∧
    b._obj_val = a._obj_val ∧
    (JObject.dtor e1 a).refcount a._obj_val = c ∧
    1 ≤ (JObject.dtor e1 a).refcount a._obj_val ∧
    (JObject.dtor e1 b).refcount a._obj_val = c ∧
    1 ≤ (JObject.dtor e1 b).refcount a._obj_val ∧
    (JObject.dtor (JObject.dtor e1 a) b).refcount a._obj_val = c - 1 ∧
    (JObject.dtor (JObject.dtor e1 b) a).refcount a._obj_val = c - 1 :=
  jobject_copy_refcount_correct
    ⟨fun _ => 1, fun _ => [], fun _ => none⟩
    ⟨JRawValueType.null, true⟩ rfl (by decide)

/-- Claim C5: destruction decrements the reference count of the wrapped
handle by exactly one when the wrapper is owning, and performs no
decrement at all (the whole reference-count map is untouched, pointwise)
when the wrapper was constructed with need_unref = false. -/
theorem jobject_dtor_need_unref
    (e : Engine) (v w : JRawValueType) :
    (JObject.dtor e (JObject.fromRaw v true)).refcount w =
      (if w = v then e.refcount w - 1 else e.refcount w) ∧
    (JObject.dtor e (JObject.fromRaw v false)).refcount w = e.refcount w := by
  constructor
  · simp [JObject.dtor, JObject.fromRaw, Engine.decRef]
  · simp [JObject.dtor, JObject.fromRaw]

/-- The discriminant of a Call Result (header lines 40-43). -/
inductive JResultType where
  | JRESULT_OK : JResultType
  | JRESULT_EXCEPTION : JResultType
deriving DecidableEq, Repr

/-- The Call Result `JResult` (header lines 184-202): one wrapped Value
Wrapper plus the discriminant. Assignment is deleted (line 201), so both
fields are fixed at construction. -/
structure JResult where
  _value : JObject
  _type : JResultType
deriving DecidableEq, Repr

/-- `JResult::value()` returns the wrapped Value Wrapper regardless of the
discriminant. -/
def JResult.value (r : JResult) : JObject :=
  r._value

/-- `JResult::type()` returns the discriminant. -/
def JResult.jtype (r : JResult) : JResultType :=
  r._type

/-- Modelled from the spec: the body of `JResult::IsOk` is not under src/.
It tests the discriminant for JRESULT_OK. -/
def JResult.IsOk (r : JResult) : Bool :=
  match r._type with
  | JResultType.JRESULT_OK => true
  | JResultType.JRESULT_EXCEPTION => false

/-- Modelled from the spec: the body of `JResult::IsException` is not under
src/. It tests the discriminant for JRESULT_EXCEPTION. -/
def JResult.IsException (r : JResult) : Bool :=
  match r._type with
  | JResultType.JRESULT_OK => false
  | JResultType.JRESULT_EXCEPTION => true

/-- The Argument List `JArgList` (header lines 216-237): fixed capacity,
current length `_argc`, and the stored wrapper sequence `_argv`. -/
structure JArgList where
  _capacity : Nat
  _argc : Nat
  _argv : List JObject
deriving DecidableEq, Repr

/-- Modelled from the spec: the body of the constructor
`JArgList(uint16_t capacity)` is not under src/. It fixes the capacity and
starts with current length 0 and no stored wrappers. -/
def JArgList.make (capacity : Nat) : JArgList :=
  ⟨capacity, 0, []⟩

/-- Modelled from the spec: the body of `JArgList::Add` is not under src/.
Appending beyond capacity is a fatal programming error, modelled as
`none`; otherwise the wrapper is appended and the current length grows by
one. -/
def JArgList.Add (a : JArgList) (x : JObject) : Option JArgList :=
  if a._argc < a._capacity then
    some ⟨a._capacity, a._argc + 1, a._argv ++ [x]⟩
  else
    none

/-- Modelled from the spec: the body of `JArgList::Get` is not under src/.
The index is bounds-checked against the current length `_argc` (not the
capacity); a violation is a fatal programming error, modelled as `none`. -/
def JArgList.Get (a : JArgList) (i : Nat) : Option JObject :=
  if i < a._argc then a._argv.get? i else none

/-- Modelled from the spec: the body of `JArgList::GetLength` is not under
src/. It returns the current length. -/
def JArgList.GetLength (a : JArgList) : Nat :=
  a._argc

/-- Appending a whole list of wrappers by iterated `Add`, propagating the
fatal-error case. -/
def JArgList.addAll (a : JArgList) : List JObject → Option JArgList
  | [] => some a
  | x :: xs => match a.Add x with
    | some a2 => a2.addAll xs
    | none => none

/-- Outcome of handing control to the engine (function invocation or
top-level evaluation): the external interpreter either produces a value or
raises an exception object. The engine is an external collaborator, so the
outcome is a parameter of the model. -/
inductive EngineOutcome where
  | ok (v : JRawValueType) : EngineOutcome
  | exc (err : JRawValueType) : EngineOutcome
deriving DecidableEq, Repr

/-- Modelled from the spec: the body of `JObject::Call` (header line 166)
is not under src/. Whatever the engine outcome is, the result is a
discriminated JResult: OK wraps the produced value, EXCEPTION wraps the
thrown exception object. Being a total Lean function, it models the
never-throws-natively contract. -/
def JObject.Call (_fn _this : JObject) (_args : JArgList)
    (outcome : EngineOutcome) : JResult :=
  match outcome with
  | EngineOutcome.ok v => ⟨⟨v, true⟩, JResultType.JRESULT_OK⟩
  | EngineOutcome.exc err => ⟨⟨err, true⟩, JResultType.JRESULT_EXCEPTION⟩

/-- Modelled from the spec: the body of the static `JObject::Eval` (header
lines 106-107) is not under src/. Top-level evaluation hands the source to
the external parser/interpreter and wraps its outcome into a discriminated
JResult exactly like `Call`. -/
def JObject.Eval (_source : List Nat) (_strict_mode : Bool)
    (outcome : EngineOutcome) : JResult :=
  match outcome with
  | EngineOutcome.ok v => ⟨⟨v, true⟩, JResultType.JRESULT_OK⟩
  | EngineOutcome.exc err => ⟨⟨err, true⟩, JResultType.JRESULT_EXCEPTION⟩

/-- Claim C2: both fallible engine boundaries, `Call` and `Eval`, always
return a discriminated JResult: on an ok engine outcome the discriminant
is JRESULT_OK and the wrapped wrapper holds the produced value; on an
exceptional outcome the discriminant is JRESULT_EXCEPTION and the wrapped
wrapper holds the thrown exception object. Totality of the two functions
models the absence of native throws and native faults. -/
theorem call_eval_always_discriminated
    (fn this_ : JObject) (args : JArgList) (source : List Nat) (strict : Bool)
    (v err : JRawValueType) :
    (JObject.Call fn this_ args (EngineOutcome.ok v)).IsOk = true ∧
    (JObject.Call fn this_ args (EngineOutcome.ok v)).value.raw_value = v ∧
    (JObject.Call fn this_ args (EngineOutcome.exc err)).IsException = true ∧
    (JObject.Call fn this_ args (EngineOutcome.exc err)).value.raw_value = err ∧
    (JObject.Eval source strict (EngineOutcome.ok v)).IsOk = true ∧
    (JObject.Eval source strict (EngineOutcome.ok v)).value.raw_value = v ∧
    (JObject.Eval source strict (EngineOutcome.exc err)).IsException = true ∧
    (JObject.Eval source strict (EngineOutcome.exc err)).value.raw_value = err ∧
    (∀ o : EngineOutcome,
      (JObject.Call fn this_ args o).IsOk = true ∨
      (JObject.Call fn this_ args o).IsException = true) := by
  refine ⟨rfl, rfl, rfl, rfl, rfl, rfl, rfl, rfl, ?_⟩
  intro o
  cases o with
  | ok w => exact Or.inl rfl
  | exc w => exact Or.inr rfl

/-- Modelled from the spec: the body of `JObject::IsNull` (header line 122)
is not under src/. A pure tag query on the wrapped handle; the engine
state is threaded to make the absence of side effects statable. -/
def JObject.IsNull (o : JObject) (e : Engine) : Bool × Engine :=
  (match o._obj_val with
   | JRawValueType.null => true
   | _ => false, e)

/-- Modelled from the spec: the body of `JObject::IsUndefined` is not under
src/. A pure tag query on the wrapped handle. -/
def JObject.IsUndefined (o : JObject) (e : Engine) : Bool × Engine :=
  (match o._obj_val with
   | JRawValueType.undef => true
   | _ => false, e)

/-- Modelled from the spec: the body of `JObject::IsBoolean` is not under
src/. A pure tag query on the wrapped handle. -/
def JObject.IsBoolean (o : JObject) (e : Engine) : Bool × Engine :=
  (match o._obj_val with
   | JRawValueType.boolean _ => true
   | _ => false, e)

/-- Modelled from the spec: the body of `JObject::IsNumber` is not under
src/. A pure tag query on the wrapped handle. -/
def JObject.IsNumber (o : JObject) (e : Engine) : Bool × Engine :=
  (match o._obj_val with
   | JRawValueType.number _ => true
   | _ => false, e)

/-- Modelled from the spec: the body of `JObject::IsString` is not under
src/. A pure tag query on the wrapped handle. -/
def JObject.IsString (o : JObject) (e : Engine) : Bool × Engine :=
  (match o._obj_val with
   | JRawValueType.str _ => true
   | _ => false, e)

/-- Modelled from the spec: the body of `JObject::IsObject` is not under
src/. A pure tag query on the wrapped handle; functions and arrays are
objects in the engine. -/
def JObject.IsObject (o : JObject) (e : Engine) : Bool × Engine :=
  (match o._obj_val with
   | JRawValueType.object _ => true
   | JRawValueType.jfunction _ => true
   | JRawValueType.array _ => true
   | _ => false, e)

/-- Modelled from the spec: the body of `JObject::IsFunction` is not under
src/. A pure tag query on the wrapped handle. -/
def JObject.IsFunction (o : JObject) (e : Engine) : Bool × Engine :=
  (match o._obj_val with
   | JRawValueType.jfunction _ => true
   | _ => false, e)

/-- Modelled from the spec: the body of `JObject::IsArray` is not under
src/. A pure tag query on the wrapped handle. -/
def JObject.IsArray (o : JObject) (e : Engine) : Bool × Engine :=
  (match o._obj_val with
   | JRawValueType.array _ => true
   | _ => false, e)

/-- Claim C9: each of the eight type predicates is a pure query: it always
succeeds (it is a total function), it leaves the engine state exactly as
given, and its boolean answer does not depend on the engine state at all,
so two invocations on the same unmodified wrapper return the same result. -/
theorem type_predicates_pure (o : JObject) (e e2 : Engine) :
    (o.IsNull e).2 = e ∧ (o.IsNull e).1 = (o.IsNull e2).1 ∧
    (o.IsUndefined e).2 = e ∧ (o.IsUndefined e).1 = (o.IsUndefined e2).1 ∧
    (o.IsBoolean e).2 = e ∧ (o.IsBoolean e).1 = (o.IsBoolean e2).1 ∧
    (o.IsNumber e).2 = e ∧ (o.IsNumber e).1 = (o.IsNumber e2).1 ∧
    (o.IsString e).2 = e ∧ (o.IsString e).1 = (o.IsString e2).1 ∧
    (o.IsObject e).2 = e ∧ (o.IsObject e).1 = (o.IsObject e2).1 ∧
    (o.IsFunction e).2 = e ∧ (o.IsFunction e).1 = (o.IsFunction e2).1 ∧
    (o.IsArray e).2 = e ∧ (o.IsArray e).1 = (o.IsArray e2).1 :=
  ⟨rfl, rfl, rfl, rfl, rfl, rfl, rfl, rfl,
   rfl, rfl, rfl, rfl, rfl, rfl, rfl, rfl⟩

/-- Association-list lookup in an object property table, first match by
string key. -/
def lookupProp : List (String × JRawValueType) → String → Option JRawValueType
  | [], _ => none
  | (k, v) :: rest, name => if k = name then some v else lookupProp rest name

/-- Modelled from the spec: the body of `JObject::GetProperty` (header line
138) is not under src/. Per the spec and the underlying runtime contract,
looking up a key present in the property table yields a wrapper of the
stored value, and looking up an absent key yields an Undefined-equivalent
wrapper; no failure path exists (the function is total). -/
def JObject.GetProperty (o : JObject) (e : Engine) (name : String) : JObject :=
  match o._obj_val with
  | JRawValueType.object id =>
    match lookupProp (e.props id) name with
    | some v => ⟨v, true⟩
    | none => ⟨JRawValueType.undef, true⟩
  | _ => ⟨JRawValueType.undef, true⟩

/-- Claim C7: for every object wrapper and every string key absent from
its property table, `GetProperty` returns a wrapper whose IsUndefined
query answers true; being a total function it never fails fatally and
never raises an error for a missing key. -/
theorem getproperty_missing_key_undefined
    (id : Nat) (owns : Bool) (e e2 : Engine) (name : String)
    (habsent : lookupProp (e.props id) name = none) :
    ((JObject.fromRaw (JRawValueType.object id) owns).GetProperty e name
      ).IsUndefined e2 = (true, e2) := by
  simp [JObject.fromRaw, JObject.GetProperty, habsent, JObject.IsUndefined]

/-- Witness for C7: an object with an empty property table and the key "k". -/
theorem getproperty_missing_key_undefined_witness :
    lookupProp ((⟨fun _ => 0, fun _ => [], fun _ => none⟩ : Engine).props 0) "k"
      = none ∧
    ((JObject.fromRaw (JRawValueType.object 0) true).GetProperty
        ⟨fun _ => 0, fun _ => [], fun _ => none⟩ "k"
      ).IsUndefined ⟨fun _ => 0, fun _ => [], fun _ => none⟩
      = (true, ⟨fun _ => 0, fun _ => [], fun _ => none⟩) :=
  ⟨rfl, getproperty_missing_key_undefined 0 true
    ⟨fun _ => 0, fun _ => [], fun _ => none⟩
    ⟨fun _ => 0, fun _ => [], fun _ => none⟩ "k" rfl⟩

/-- Modelled from the spec: the body of the constructor
`JObject(const String& v)` (header line 66) is not under src/. A native
string is a byte sequence with an explicit declared length (so embedded
zero bytes are kept); the constructor creates an engine string holding
exactly those bytes. -/
def JObject.fromString (s : List Nat) : JObject :=
  ⟨JRawValueType.str s, true⟩

/-- Modelled from the spec: the body of `JObject::GetString` (header line
157) is not under src/. It reads the byte contents of a string handle
back into a native string. -/
def JObject.GetString (o : JObject) : List Nat :=
  match o._obj_val with
  | JRawValueType.str s => s
  | _ => []

/-- Claim C8: constructing a Value Wrapper from any native string and
reading it back via GetString is the identity, for every byte sequence,
including the empty one and sequences containing zero bytes anywhere up to
the declared length. -/
theorem string_roundtrip (s : List Nat) :
    (JObject.fromString s).GetString = s :=
  rfl

/-- A non-owning Argument List view over an engine-supplied raw argument
array, as built inside the Handler Context: the engine owns those handles
for the duration of the call, so each wrapper is created with
need_unref = false. -/
def argListOfRaw (args : List JRawValueType) : JArgList :=
  ⟨args.length, args.length, args.map (fun v => JObject.fromRaw v false)⟩

/-- The Handler Context `JHandlerInfo` (header lines 240-268): non-owning
wrappers for the callee and the receiver, the argument list view, the
output slot (the pointee of `_ret_val_p`, modelled by value) and the
thrown flag. -/
structure JHandlerInfo where
  _function : JObject
  _this : JObject
  _arg_list : JArgList
  _ret_val : JRawValueType
  _thrown : Bool
deriving DecidableEq, Repr

/-- Modelled from the spec: the body of the `JHandlerInfo` constructor
(header lines 242-246) is not under src/. It wraps the callee, the
receiver and the arguments as non-owning views, records the output slot
and starts with the thrown flag down. -/
def JHandlerInfo.make (func_obj_val this_val : JRawValueType)
    (ret_val : JRawValueType) (args_p : List JRawValueType) : JHandlerInfo :=
  { _function := JObject.fromRaw func_obj_val false
    _this := JObject.fromRaw this_val false
    _arg_list := argListOfRaw args_p
    _ret_val := ret_val
    _thrown := false }

/-- Modelled from the spec: the body of `JHandlerInfo::Return` (header line
254) is not under src/. It writes the raw handle of the given value into
the output slot. -/
def JHandlerInfo.Return (h : JHandlerInfo) (ret : JObject) : JHandlerInfo :=
  { h with _ret_val := ret.raw_value }

/-- Modelled from the spec: the body of `JHandlerInfo::Throw` (header line
257) is not under src/. It writes the raw handle of the error into the
output slot and raises the thrown flag. -/
def JHandlerInfo.Throw (h : JHandlerInfo) (err : JObject) : JHandlerInfo :=
  { h with _ret_val := err.raw_value, _thrown := true }

/-- Modelled from the spec: the body of `JHandlerInfo::HasThrown` (header
line 260) is not under src/. It reports the thrown flag. -/
def JHandlerInfo.HasThrown (h : JHandlerInfo) : Bool :=
  h._thrown

/-- Claim C6: on a live (freshly constructed) Handler Context, HasThrown
is false; Return(value) writes the raw handle of the value into the
output slot and leaves HasThrown false; Throw(error) writes the raw
handle of the error into the output slot and makes HasThrown true
thereafter, and HasThrown stays true even after a later Return. -/
theorem jhandlerinfo_return_throw
    (f t r : JRawValueType) (args : List JRawValueType) (v err : JObject) :
    let h0 := JHandlerInfo.make f t r args
    h0.HasThrown = false ∧
    (h0.Return v)._ret_val = v.raw_value ∧
    (h0.Return v).HasThrown = false ∧
    (h0.Throw err)._ret_val = err.raw_value ∧
    (h0.Throw err).HasThrown = true ∧
    ((h0.Throw err).Return v).HasThrown = true :=
  ⟨rfl, rfl, rfl, rfl, rfl, rfl⟩

/-- One step a native handler body may perform on its Handler Context:
call Return, call Throw, or perform a pure query (reading an argument,
testing a type predicate, and so on), the latter leaving the context
unchanged. -/
inductive HandlerAction where
  | ret (v : JRawValueType) : HandlerAction
  | thr (v : JRawValueType) : HandlerAction
  | query : HandlerAction
deriving Repr

/-- Whether the action is a pure query, touching neither the output slot
nor the thrown flag. -/
def HandlerAction.isQuery : HandlerAction → Bool
  | HandlerAction.query => true
  | _ => false

/-- Running a handler body, given as the sequence of actions it performs
on its Handler Context. -/
def runHandler : List HandlerAction → JHandlerInfo → JHandlerInfo
  | [], h => h
  | HandlerAction.ret v :: rest, h =>
      runHandler rest (h.Return (JObject.fromRaw v false))
  | HandlerAction.thr v :: rest, h =>
      runHandler rest (h.Throw (JObject.fromRaw v false))
  | HandlerAction.query :: rest, h => runHandler rest h

/-- `jerry_create_undefined` of the engine C API: the Undefined-equivalent
raw handle. -/
def jerry_create_undefined : JRawValueType :=
  JRawValueType.undef

/-- The invocation adapter generated by the `JHANDLER_FUNCTION` macro
(header lines 286-297): initialize the output slot with
`jerry_create_undefined()`, build the Handler Context over the raw call
quadruple and the slot, run the developer-supplied handler body, and
return the final contents of the slot to the engine. -/
def JHANDLER_FUNCTION (body : List HandlerAction)
    (func_obj_val this_val : JRawValueType)
    (args_p : List JRawValueType) : JRawValueType :=
  let ret_val := jerry_create_undefined
  let handler := JHandlerInfo.make func_obj_val this_val ret_val args_p
  (runHandler body handler)._ret_val

/-- A handler body consisting of pure queries only leaves the Handler
Context exactly as constructed. -/
theorem runHandler_queries_id (body : List HandlerAction)
    (h : JHandlerInfo) (hq : body.all HandlerAction.isQuery = true) :
    runHandler body h = h := by
  induction body with
  | nil => rfl
  | cons a rest ih =>
    cases a with
    | ret v => simp [HandlerAction.isQuery] at hq
    | thr v => simp [HandlerAction.isQuery] at hq
    | query =>
      simp only [List.all_cons, Bool.and_eq_true] at hq
      show runHandler rest h = h
      exact ih hq.2

/-- Claim C3: the invocation adapter generated by JHANDLER_FUNCTION
initializes the output slot to the Undefined-equivalent value
jerry_create_undefined before running the handler body, and returns the
final contents of that slot to the engine; hence a handler body that
calls neither Return nor Throw (performs pure queries only) makes the
enclosing call return the Undefined-equivalent value. -/
theorem jhandler_function_implicit_undefined
    (body : List HandlerAction) (f t : JRawValueType)
    (args : List JRawValueType)
    (hq : body.all HandlerAction.isQuery = true) :
    (JHandlerInfo.make f t jerry_create_undefined args)._ret_val
      = jerry_create_undefined ∧
    JHANDLER_FUNCTION body f t args
      = (runHandler body (JHandlerInfo.make f t jerry_create_undefined args)
        )._ret_val ∧
    JHANDLER_FUNCTION body f t args = jerry_create_undefined := by
  refine ⟨rfl, rfl, ?_⟩
  show (runHandler body (JHandlerInfo.make f t jerry_create_undefined args)
    )._ret_val = jerry_create_undefined
  rw [runHandler_queries_id body _ hq]
  simp [JHandlerInfo.make]

/-- Witness for C3: a handler body of one pure query, invoked on a
concrete call quadruple, returns the Undefined-equivalent value. -/
theorem jhandler_function_implicit_undefined_witness :
    ([HandlerAction.query].all HandlerAction.isQuery = true) ∧
    ((JHandlerInfo.make JRawValueType.null JRawValueType.null
        jerry_create_undefined [JRawValueType.null])._ret_val
      = jerry_create_undefined ∧
    JHANDLER_FUNCTION [HandlerAction.query] JRawValueType.null
        JRawValueType.null [JRawValueType.null]
      = (runHandler [HandlerAction.query]
          (JHandlerInfo.make JRawValueType.null JRawValueType.null
            jerry_create_undefined [JRawValueType.null]))._ret_val ∧
    JHANDLER_FUNCTION [HandlerAction.query] JRawValueType.null
        JRawValueType.null [JRawValueType.null]
      = jerry_create_undefined) :=
  ⟨by decide,
   jhandler_function_implicit_undefined [HandlerAction.query]
     JRawValueType.null JRawValueType.null [JRawValueType.null] (by decide)⟩

/-- Iterated `Add` on a list that fits within the remaining capacity
succeeds and appends the wrappers in order, growing the current length
accordingly. -/
theorem JArgList.addAll_ok (xs : List JObject) :
    ∀ a : JArgList, a._argv.length = a._argc →
      a._argc + xs.length ≤ a._capacity →
      a.addAll xs = some ⟨a._capacity, a._argc + xs.length, a._argv ++ xs⟩ := by
  induction xs with
  | nil =>
    intro a _ _
    simp [JArgList.addAll]
  | cons x rest ih =>
    intro a hinv hcap
    have hlt : a._argc < a._capacity := by
      simp at hcap
      omega
    have hstep : a.Add x = some ⟨a._capacity, a._argc + 1, a._argv ++ [x]⟩ := by
      simp [JArgList.Add, hlt]
    have hrec := ih ⟨a._capacity, a._argc + 1, a._argv ++ [x]⟩
      (by simp [hinv]) (by simp at hcap ⊢; omega)
    simp only [JArgList.addAll, hstep]
    simp only [hrec]
    simp
    omega

/-- `addAll` splits over list append: the second half runs on the state
left by the first. -/
theorem JArgList.addAll_append (xs ys : List JObject) :
    ∀ a : JArgList, a.addAll (xs ++ ys)
      = match a.addAll xs with
        | some a2 => a2.addAll ys
        | none => none := by
  induction xs with
  | nil => intro a; simp [JArgList.addAll]
  | cons x rest ih =>
    intro a
    simp only [List.cons_append, JArgList.addAll]
    cases a.Add x with
    | none => rfl
    | some a2 => exact ih a2

/-- Claim C4: on an Argument List of capacity n = xs.length, appending the
elements one by one via Add succeeds for every prefix and grows the
current length each time (the length after k appends is min k n);
attempting to append the element after the n-th is the fatal error, not a
recoverable condition (Add returns none, and so does the whole iterated
append); and Get(i) is bounds-checked against the current length, not the
capacity: on a list of current length xs.length it agrees with positional
lookup in the stored sequence for every index, returning the stored
element below the length and failing above it even when the capacity is
larger. -/
theorem jarglist_capacity_add_get
    (xs : List JObject) (y : JObject) (cap k i : Nat) :
    (JArgList.make xs.length).addAll (xs.take k)
      = some ⟨xs.length, min k xs.length, xs.take k⟩ ∧
    (JArgList.mk xs.length xs.length xs).Add y = none ∧
    (JArgList.make xs.length).addAll (xs ++ [y]) = none ∧
    (JArgList.mk cap xs.length xs).Get i = xs.get? i ∧
    (JArgList.mk cap xs.length xs).GetLength = xs.length := by
  have hfull : (JArgList.make xs.length).addAll xs = some ⟨xs.length, xs.length, xs⟩ := by
    have h := JArgList.addAll_ok xs (JArgList.make xs.length) rfl (by simp [JArgList.make])
    simpa [JArgList.make] using h
  refine ⟨?_, ?_, ?_, ?_, rfl⟩
  · have h := JArgList.addAll_ok (xs.take k) (JArgList.make xs.length)
      rfl (by simp [JArgList.make])
    simpa [JArgList.make] using h
  · simp [JArgList.Add]
  · rw [JArgList.addAll_append]
    simp only [hfull]
    simp [JArgList.addAll, JArgList.Add]
  · simp only [JArgList.Get]
    split
    · rfl
    · rename_i h
      exact (List.get?_eq_none.mpr (by omega)).symm

/-- Add a property binding to the table of one object identity
(`jerry_api_set_object_field_value`). -/
def Engine.putProp (e : Engine) (id : Nat) (name : String)
    (v : JRawValueType) : Engine :=
  { e with props := fun i => if i = id then (name, v) :: e.props i else e.props i }

/-- Attach the native pointer of one object identity
(`jerry_api_set_object_native_handle`). -/
def Engine.putNative (e : Engine) (id : Nat) (ptr : Nat) : Engine :=
  { e with natives := fun i => if i = id then some ptr else e.natives i }

/-- One invocation of a JObject member function during the lifetime of a
wrapper instance, as enumerated by the header (lines 116-167): Ref, Unref,
SetMethod, SetProperty, SetNative, GetProperty, the type predicates and
the scalar accessors and Call. Copy assignment is deleted (header line
177), so no operation that would re-seat the wrapper onto a different
handle exists in the interface; this inductive is that complete operation
surface. -/
inductive JObjectOp where
  | refOp : JObjectOp
  | unrefOp : JObjectOp
  | setMethod (name : String) (handlerId : Nat) : JObjectOp
  | setProperty (name : String) (v : JRawValueType) : JObjectOp
  | setNative (ptr : Nat) : JObjectOp
  | getPropertyOp (name : String) : JObjectOp
  | predicateOp : JObjectOp
  | accessorOp : JObjectOp

/-- Modelled from the spec: the bodies of the mutating member functions
are not under src/. Each member function may mutate the engine (reference
counts, property tables, native pointers) but returns the wrapper
instance with its two fields exactly as they were: no member function
assigns to _obj_val or _unref_at_close, and the deleted assignment
operator is the only C++ mechanism that could have. -/
def applyOp (o : JObject) (e : Engine) (op : JObjectOp) : JObject × Engine :=
  (o, match op with
      | JObjectOp.refOp => e.incRef o._obj_val
      | JObjectOp.unrefOp => e.decRef o._obj_val
      | JObjectOp.setMethod name hid =>
          match o._obj_val with
          | JRawValueType.object id =>
              e.putProp id name (JRawValueType.jfunction hid)
          | _ => e
      | JObjectOp.setProperty name v =>
          match o._obj_val with
          | JRawValueType.object id => e.putProp id name v
          | _ => e
      | JObjectOp.setNative ptr =>
          match o._obj_val with
          | JRawValueType.object id => e.putNative id ptr
          | _ => e
      | JObjectOp.getPropertyOp _ => e
      | JObjectOp.predicateOp => e
      | JObjectOp.accessorOp => e)

/-- A whole lifetime of member-function invocations on one wrapper
instance, from construction to destruction. -/
def applyOps (o : JObject) (e : Engine) : List JObjectOp → JObject × Engine
  | [] => (o, e)
  | op :: rest => applyOps (applyOp o e op).1 (applyOp o e op).2 rest

/-- Member-function invocations never change the wrapper instance itself. -/
theorem applyOps_fst (ops : List JObjectOp) :
    ∀ (o : JObject) (e : Engine), (applyOps o e ops).1 = o := by
  induction ops with
  | nil => intro o e; rfl
  | cons op rest ih => intro o e; exact ih o (applyOp o e op).2

/-- Claim C10: copy assignment is deleted for the Value Wrapper and for
the Call Result, so the raw handle and the ownership flag fixed at
construction never change during an instance's lifetime: over any
sequence of member-function invocations, raw_value and the ownership
flag of the wrapper are those set at construction, and the value and
discriminant of a Call Result are those set at construction (its accessor
functions are pure projections). -/
theorem raw_value_constant_over_lifetime
    (o : JObject) (e : Engine) (ops : List JObjectOp)
    (v : JObject) (t : JResultType) :
    (applyOps o e ops).1.raw_value = o.raw_value ∧
    (applyOps o e ops).1._unref_at_close = o._unref_at_close ∧
    (JResult.mk v t).value = v ∧
    (JResult.mk v t).jtype = t := by
  refine ⟨?_, ?_, rfl, rfl⟩
  · rw [applyOps_fst]
  · rw [applyOps_fst]
